import Mathlib

/-!
# Room-acoustics RT60 and plotting pipeline: a shallow embedding

This file embeds the pure computational parts of `src/main.py` of the
ADSP room-acoustics project and proves properties of them.

Python floats are modelled as exact rationals (`ℚ`): every operation the
embedded code performs (addition, multiplication, division, comparison)
is exact real arithmetic here, which is the idealised semantics the
specification describes.  The external `acoustics` module (class
`RoomAcoustics` and its `image_source_method`) is not part of the
repository sources; where a claim depends on it, a model built from the
specification's own words is used and clearly marked.
-/

/-- The three frequency bands used throughout the program: the keys
`low`, `mid`, `high` of the `abs_coeff` dictionary. -/
inductive Band : Type
  | low : Band
  | mid : Band
  | high : Band
deriving DecidableEq, Repr

/-- Embedding of `compute_room_volume(room_dims)`:
`length * width * height`, with `room_dims = (length, width, height)`. -/
def compute_room_volume (room_dims : ℚ × ℚ × ℚ) : ℚ :=
  room_dims.1 * room_dims.2.1 * room_dims.2.2

/-- Embedding of `compute_surface_areas(room_dims)`: the list
`[length*width, length*width, length*height, length*height,
width*height, width*height]` (floor & ceiling, front & back walls,
left & right walls, in the source's order). -/
def compute_surface_areas (room_dims : ℚ × ℚ × ℚ) : List ℚ :=
  [room_dims.1 * room_dims.2.1, room_dims.1 * room_dims.2.1,
   room_dims.1 * room_dims.2.2, room_dims.1 * room_dims.2.2,
   room_dims.2.1 * room_dims.2.2, room_dims.2.1 * room_dims.2.2]

/-- Embedding of the expression
`sum(area * alpha for area, alpha in zip(surface_areas, coeffs))`
inside `calculate_rt60`.  Python's `zip` truncates to the shorter list,
exactly as `List.zipWith` does. -/
def bandTotalAbsorption (surface_areas coeffs : List ℚ) : ℚ :=
  (List.zipWith (fun area alpha => area * alpha) surface_areas coeffs).sum

/-- Embedding of `calculate_rt60(room_dims, abs_coeff)`.  The Python
dictionary `abs_coeff` (keys `low`/`mid`/`high`) is a function
`Band → List ℚ`, and the returned dictionary `rt60_results` is a
function `Band → ℚ`; the loop body
`rt60_results[band] = 0.161 * (volume / total_absorption) if
total_absorption > 0 else 0` becomes the guarded expression below. -/
def calculate_rt60 (room_dims : ℚ × ℚ × ℚ) (abs_coeff : Band → List ℚ) :
    Band → ℚ := fun band =>
  let volume := compute_room_volume room_dims
  let surface_areas := compute_surface_areas room_dims
  let total_absorption := bandTotalAbsorption surface_areas (abs_coeff band)
  if 0 < total_absorption then 0.161 * (volume / total_absorption) else 0

/-- Running prefix sums with a starting accumulator; `cumsumFrom 0`
is `numpy.cumsum` on a list. -/
def cumsumFrom (acc : ℚ) : List ℚ → List ℚ
  | [] => []
  | x :: xs => (acc + x) :: cumsumFrom (acc + x) xs

/-- Embedding of `numpy.cumsum` on a one-dimensional array. -/
def cumsum (xs : List ℚ) : List ℚ := cumsumFrom 0 xs

/-- Embedding of the energy-curve line of `plot_responses_and_rt60`:
`energy = np.cumsum(response[0]**2)[::-1]`, i.e. square every sample,
take the forward cumulative sum, then reverse the array. -/
def energyCurve (a : List ℚ) : List ℚ :=
  (cumsum (a.map (fun x => x * x))).reverse

/-- The decay-curve value the specification describes
("cumulative-sum-from-the-end energy integration"): at sample index `t`
the sum of the squared amplitudes from `t` to the end of the array. -/
def specDecayValue (a : List ℚ) (t : ℕ) : ℚ :=
  ((a.map (fun x => x * x)).drop t).sum

/-- A coefficient dictionary with a fully reflective low band. -/
def zeroLowCoeffs : Band → List ℚ
  | Band.low => [0, 0, 0, 0, 0, 0]
  | Band.mid => [0.3, 0.3, 0.3, 0.3, 0.3, 0.3]
  | Band.high => [0.5, 0.5, 0.5, 0.5, 0.5, 0.5]

/-- A dictionary that differs from `zeroLowCoeffs` only at the low
band. -/
def otherLowCoeffs : Band → List ℚ
  | Band.low => [1, 1, 1, 1, 1, 1]
  | Band.mid => [0.3, 0.3, 0.3, 0.3, 0.3, 0.3]
  | Band.high => [0.5, 0.5, 0.5, 0.5, 0.5, 0.5]

/-- A syntactically different copy of `zeroLowCoeffs`, equal to it at
every band. -/
def zeroLowCoeffsCopy : Band → List ℚ := fun band =>
  match band with
  | Band.low => [0, 0, 0, 0, 0, 0]
  | Band.mid => [0.3, 0.3, 0.3, 0.3, 0.3, 0.3]
  | Band.high => [0.5, 0.5, 0.5, 0.5, 0.5, 0.5]

/-! ## Model of the image-source simulation engine

`main.py` imports `RoomAcoustics` from an `acoustics` module whose
source is not part of this repository; only its constructor call and
the call `image_source_method(enhanced=True)` are visible.  The
definitions below are therefore modelled from the specification
(sections on the Geometry Model, Image Source Enumerator, Band
Attenuation Model, Impulse Response Synthesizer and Room Acoustics
Facade), not translated from code. -/

/-- A 3D point, or a triple of room dimensions. -/
abbrev Point3 : Type := ℝ × ℝ × ℝ

/-- Modelled from the spec: a virtual source of the image-source
enumeration — a mirrored position together with the ordered list of the
wall indices it reflected off. -/
structure VirtualSource : Type where
  position : Point3
  reflections : List ℕ

/-- Modelled from the spec: reflection of a point across one of the six
walls, indexed `0..5` in the canonical order `-x,+x,-y,+y,-z,+z`;
reflecting across the wall on axis `a` at boundary `b` maps coordinate
`a` to `2*b - a` and leaves the other coordinates unchanged. -/
def reflect_point (dims : Point3) (w : ℕ) (p : Point3) : Point3 :=
  match w with
  | 0 => (2 * 0 - p.1, p.2.1, p.2.2)
  | 1 => (2 * dims.1 - p.1, p.2.1, p.2.2)
  | 2 => (p.1, 2 * 0 - p.2.1, p.2.2)
  | 3 => (p.1, 2 * dims.2.1 - p.2.1, p.2.2)
  | 4 => (p.1, p.2.1, 2 * 0 - p.2.2)
  | 5 => (p.1, p.2.1, 2 * dims.2.2 - p.2.2)
  | _ => p

/-- Modelled from the spec: the virtual sources of exactly reflection
order `k`.  Order 0 is the real source with an empty reflection list;
order `k+1` reflects every order-`k` source across each of the six
walls, appending the wall index to its reflection list. -/
def orderSources (dims source : Point3) : ℕ → List VirtualSource
  | 0 => [⟨source, []⟩]
  | k + 1 =>
    (orderSources dims source k).bind fun vs =>
      (List.range 6).map fun w =>
        ⟨reflect_point dims w vs.position, vs.reflections ++ [w]⟩

/-- Modelled from the spec: the finite enumeration of all virtual
sources of orders `0..max_order`, generated breadth-first. -/
def enumerate_images (dims source : Point3) (max_order : ℕ) :
    List VirtualSource :=
  (List.range (max_order + 1)).bind (orderSources dims source)

/-- Modelled from the spec: per-band amplitude attenuation of a virtual
source — the product over its reflection list of
`sqrt(1 - abs_coeff[band][wall])`; the empty product (the direct path)
is 1. -/
noncomputable def attenuation (vs : VirtualSource) (coeffs : List ℝ) : ℝ :=
  vs.reflections.foldl (fun acc w => acc * Real.sqrt (1 - coeffs.getD w 0)) 1

/-- Modelled from the spec: synthesis configuration — sample rate,
buffer length, speed of sound, the epsilon guarding division by
near-zero distance, and the band-limited pulse kernel (with its
half-width) used by the `enhanced` mode. -/
structure SynthParams : Type where
  sample_rate : ℝ
  buffer_length : ℕ
  speed_of_sound : ℝ
  epsilon : ℝ
  kernel_width : ℕ
  kernel : ℤ → ℝ

/-- Euclidean distance between two 3D points. -/
noncomputable def dist3 (p q : Point3) : ℝ :=
  Real.sqrt ((p.1 - q.1)^2 + (p.2.1 - q.2.1)^2 + (p.2.2 - q.2.2)^2)

/-- Add `v` to the sample at index `i` of the buffer, when `i` lies in
`[0, buffer length)`; contributions sum, they are never overwritten. -/
def addAt (buf : List ℝ) (i : ℤ) (v : ℝ) : List ℝ :=
  if 0 ≤ i ∧ i < (buf.length : ℤ) then
    buf.set i.toNat (buf.getD i.toNat 0 + v)
  else buf

/-- Modelled from the spec: one virtual source's contribution to the
buffer — a single-sample impulse at the computed index, or, in
`enhanced` mode, the amplitude spread across a fixed-width pulse kernel
centred at that index. -/
noncomputable def contribute (params : SynthParams) (enhanced : Bool)
    (buf : List ℝ) (idx : ℤ) (amp : ℝ) : List ℝ :=
  if enhanced then
    (List.range (2 * params.kernel_width + 1)).foldl
      (fun b o =>
        addAt b (idx + (o : ℤ) - (params.kernel_width : ℤ))
          (amp * params.kernel ((o : ℤ) - (params.kernel_width : ℤ))))
      buf
  else addAt buf idx amp

/-- Modelled from the spec: the Impulse Response Synthesizer.  For each
virtual source: Euclidean distance `d` to the receiver, delay
`d / speed_of_sound`, sample index `round(delay * sample_rate)`,
amplitude `attenuation / max d epsilon`, accumulated into a fixed-length
zero-initialised buffer. -/
noncomputable def synthesize (params : SynthParams) (coeffs : List ℝ)
    (sources : List VirtualSource) (receiver : Point3)
    (enhanced : Bool) : List ℝ :=
  sources.foldl
    (fun buf vs =>
      let d := dist3 vs.position receiver
      let idx := round (d / params.speed_of_sound * params.sample_rate)
      let amp := attenuation vs coeffs / max d params.epsilon
      contribute params enhanced buf idx amp)
    (List.replicate params.buffer_length 0)

/-- Modelled from the spec: the validation error kinds of the engine. -/
inductive SimError : Type
  | InvalidGeometry : SimError
  | InvalidAbsorption : SimError
  | EmptyConfiguration : SimError
  | OutOfBoundsPosition : SimError
deriving DecidableEq, Repr

/-- Modelled from the spec: the configuration consumed by one
simulation call (the constructor arguments of `RoomAcoustics`). -/
structure SimulationConfig : Type where
  room_dims : Point3
  source_positions : List Point3
  receiver_positions : List Point3
  abs_coeff : Band → List ℝ
  max_order : ℕ

/-- All three room dimensions are positive. -/
def validGeometry (cfg : SimulationConfig) : Prop :=
  0 < cfg.room_dims.1 ∧ 0 < cfg.room_dims.2.1 ∧ 0 < cfg.room_dims.2.2

/-- Every band has exactly six coefficients, each in `[0,1]`. -/
def validAbsorption (cfg : SimulationConfig) : Prop :=
  ∀ b : Band, (cfg.abs_coeff b).length = 6 ∧
    ∀ alpha ∈ cfg.abs_coeff b, 0 ≤ alpha ∧ alpha ≤ 1

/-- A point lies inside the room or on its boundary. -/
def inBounds (dims : Point3) (p : Point3) : Prop :=
  0 ≤ p.1 ∧ p.1 ≤ dims.1 ∧ 0 ≤ p.2.1 ∧ p.2.1 ≤ dims.2.1 ∧
    0 ≤ p.2.2 ∧ p.2.2 ≤ dims.2.2

/-- Every source and receiver position lies inside the room. -/
def validPositions (cfg : SimulationConfig) : Prop :=
  ∀ p ∈ cfg.source_positions ++ cfg.receiver_positions,
    inBounds cfg.room_dims p

/-- Modelled from the spec: one receiver's per-band response — the
amplitude-level sum of the synthesized contributions of every
configured source. -/
noncomputable def bandResponse (params : SynthParams)
    (cfg : SimulationConfig) (enhanced : Bool) (band : Band)
    (receiver : Point3) : List ℝ :=
  cfg.source_positions.foldl
    (fun buf src =>
      List.zipWith (fun x y => x + y) buf
        (synthesize params (cfg.abs_coeff band)
          (enumerate_images cfg.room_dims src cfg.max_order) receiver
          enhanced))
    (List.replicate params.buffer_length 0)

open Classical in
/-- Modelled from the spec: the Room Acoustics Facade
`image_source_method`.  Validation failures are detected before any
simulation work; on success the result is keyed first by band, each
value an ordered sequence of responses, one per receiver, in receiver
input order. -/
noncomputable def image_source_method (params : SynthParams)
    (cfg : SimulationConfig) (enhanced : Bool) :
    Except SimError (Band → List (List ℝ)) :=
  if cfg.source_positions = [] ∨ cfg.receiver_positions = [] then
    Except.error SimError.EmptyConfiguration
  else if ¬ validGeometry cfg then Except.error SimError.InvalidGeometry
  else if ¬ validAbsorption cfg then Except.error SimError.InvalidAbsorption
  else if ¬ validPositions cfg then Except.error SimError.OutOfBoundsPosition
  else
    Except.ok fun band =>
      cfg.receiver_positions.map (bandResponse params cfg enhanced band)

/-- Embedding of `simulate_acoustics(acoustics_simulator)` from
`main.py`: it calls `image_source_method` with `enhanced=True`. -/
noncomputable def simulate_acoustics (params : SynthParams)
    (cfg : SimulationConfig) : Except SimError (Band → List (List ℝ)) :=
  image_source_method params cfg true

/-- Concrete synthesis parameters used by the facade witness. -/
noncomputable def exParams : SynthParams where
  sample_rate := 44100
  buffer_length := 1000
  speed_of_sound := 343
  epsilon := 0.000001
  kernel_width := 2
  kernel := fun _ => 1

/-- Concrete valid configuration used by the facade witness: the 4×3×2.5
room from the specification's round-trip property, one source, two
receivers, uniform absorption 0.3, reflection order 3. -/
noncomputable def exConfig : SimulationConfig where
  room_dims := (4, 3, 2.5)
  source_positions := [(1, 1, 1)]
  receiver_positions := [(2, 2, 1), (3, 1, 2)]
  abs_coeff := fun _ => [0.3, 0.3, 0.3, 0.3, 0.3, 0.3]
  max_order := 3

/-- Python's `zip` stops at the shorter sequence; the products in the
generator expression only pair a prefix of the wall areas when the
coefficient list is shorter (and vice versa). -/
theorem zipWith_mul_truncate (l₁ l₂ : List ℚ) :
    List.zipWith (fun area alpha => area * alpha) l₁ l₂
      = List.zipWith (fun area alpha => area * alpha) (l₁.take l₂.length) l₂ := by
  induction l₁ generalizing l₂ with
  | nil => simp
  | cons x xs ih =>
    cases l₂ with
    | nil => simp
    | cons y ys => simpa using ih ys

/-- Closed form of `calculate_rt60` on a band whose coefficient list has
exactly six entries and positive total absorption, with the wall areas
spelled out in the source's order. -/
theorem rt60_closed_form (l w h a0 a1 a2 a3 a4 a5 : ℚ)
    (abs_coeff : Band → List ℚ) (band : Band)
    (hc : abs_coeff band = [a0, a1, a2, a3, a4, a5])
    (hpos : 0 < l*w*a0 + l*w*a1 + l*h*a2 + l*h*a3 + w*h*a4 + w*h*a5) :
    calculate_rt60 (l, w, h) abs_coeff band =
      0.161 * (l * w * h) /
        (l*w*a0 + l*w*a1 + l*h*a2 + l*h*a3 + w*h*a4 + w*h*a5) := by
  have hS : bandTotalAbsorption (compute_surface_areas (l, w, h)) (abs_coeff band)
      = l*w*a0 + l*w*a1 + l*h*a2 + l*h*a3 + w*h*a4 + w*h*a5 := by
    simp [bandTotalAbsorption, compute_surface_areas, hc]
    ring
  simp only [calculate_rt60, hS, compute_room_volume]
  rw [if_pos hpos]
  ring

/-- C1: for positive room dimensions and a band whose six absorption
coefficients give a positive total absorption, `calculate_rt60` returns
exactly `0.161 * (length*width*height) / Σ wall_area_i * abs_coeff[band][i]`,
with the volume computed as `length*width*height`. -/
theorem calculate_rt60_sabine (l w h a0 a1 a2 a3 a4 a5 : ℚ)
    (abs_coeff : Band → List ℚ) (band : Band)
    (hl : 0 < l) (hw : 0 < w) (hh : 0 < h)
    (hc : abs_coeff band = [a0, a1, a2, a3, a4, a5])
    (hpos : 0 < l*w*a0 + l*w*a1 + l*h*a2 + l*h*a3 + w*h*a4 + w*h*a5) :
    compute_room_volume (l, w, h) = l * w * h ∧
    calculate_rt60 (l, w, h) abs_coeff band =
      0.161 * (l * w * h) /
        (l*w*a0 + l*w*a1 + l*h*a2 + l*h*a3 + w*h*a4 + w*h*a5) :=
  ⟨rfl, rt60_closed_form l w h a0 a1 a2 a3 a4 a5 abs_coeff band hc hpos⟩

/-- C1 witness: a 1×1×1 room with absorption only on the floor. -/
theorem calculate_rt60_sabine_witness :
    compute_room_volume (1, 1, 1) = 1 * 1 * 1 ∧
    calculate_rt60 (1, 1, 1) (fun _ => [1, 0, 0, 0, 0, 0]) Band.low =
      0.161 * (1 * 1 * 1) /
        (1*1*1 + 1*1*0 + 1*1*0 + 1*1*0 + 1*1*0 + 1*1*0) :=
  calculate_rt60_sabine 1 1 1 1 0 0 0 0 0 (fun _ => [1, 0, 0, 0, 0, 0])
    Band.low (by norm_num) (by norm_num) (by norm_num) rfl (by norm_num)

/-- C2 counterexample: at `room_dims = (1, 2, 3)` the code's wall-area
list starts with the floor/ceiling area `length*width = 2`, not with
`width*height = 6` as the claimed canonical `-x,+x,-y,+y,-z,+z` order
would require. -/
theorem compute_surface_areas_order_counterexample :
    compute_surface_areas (1, 2, 3) = [2, 2, 3, 3, 6, 6] ∧
    compute_surface_areas (1, 2, 3) ≠ [2*3, 2*3, 1*3, 1*3, 1*2, 1*2] := by
  norm_num [compute_surface_areas]

/-- C2 amended: `compute_surface_areas` returns
`(length*width, length*width, length*height, length*height,
width*height, width*height)` — floor & ceiling first, then front & back,
then left & right — and the i-th absorption coefficient of a band is
paired with the i-th wall of that order in the total-absorption sum. -/
theorem compute_surface_areas_order_amended (l w h c0 c1 c2 c3 c4 c5 : ℚ) :
    compute_surface_areas (l, w, h) = [l*w, l*w, l*h, l*h, w*h, w*h] ∧
    bandTotalAbsorption (compute_surface_areas (l, w, h))
        [c0, c1, c2, c3, c4, c5]
      = l*w*c0 + l*w*c1 + l*h*c2 + l*h*c3 + w*h*c4 + w*h*c5 := by
  refine ⟨rfl, ?_⟩
  simp [bandTotalAbsorption, compute_surface_areas]
  ring

/-- C3: the six wall areas computed by `compute_surface_areas` sum to
`2*(length*width + length*height + width*height)`. -/
theorem surface_areas_sum (l w h : ℚ) :
    (compute_surface_areas (l, w, h)).sum = 2 * (l*w + l*h + w*h) := by
  simp [compute_surface_areas]
  ring

/-- C4 counterexample: with the out-of-range coefficient `2` on the
first wall of a 1×1×1 room, `calculate_rt60` neither fails nor clamps:
it returns `0.161/2 = 161/2000`, using the raw value `2` in the sum
(clamping to `1` would give `161/1000`). -/
theorem invalid_absorption_counterexample :
    (1 : ℚ) < 2 ∧
    calculate_rt60 (1, 1, 1) (fun _ => [2, 0, 0, 0, 0, 0]) Band.low
      = 161 / 2000 ∧
    calculate_rt60 (1, 1, 1) (fun _ => [1, 0, 0, 0, 0, 0]) Band.low
      = 161 / 1000 := by
  norm_num [calculate_rt60, compute_room_volume, compute_surface_areas,
    bandTotalAbsorption]

/-- C4 amended: `calculate_rt60` performs no range validation on
absorption coefficients: an out-of-range coefficient flows unchanged
into the Sabine sum and an RT60 value is returned (no
`InvalidAbsorption` failure, no clamping). -/
theorem calculate_rt60_no_range_validation (l w h a0 a1 a2 a3 a4 a5 : ℚ)
    (abs_coeff : Band → List ℚ) (band : Band)
    (hc : abs_coeff band = [a0, a1, a2, a3, a4, a5])
    (hout : a0 < 0 ∨ 1 < a0)
    (hpos : 0 < l*w*a0 + l*w*a1 + l*h*a2 + l*h*a3 + w*h*a4 + w*h*a5) :
    calculate_rt60 (l, w, h) abs_coeff band =
      0.161 * (l * w * h) /
        (l*w*a0 + l*w*a1 + l*h*a2 + l*h*a3 + w*h*a4 + w*h*a5) :=
  rt60_closed_form l w h a0 a1 a2 a3 a4 a5 abs_coeff band hc hpos

/-- C4 amended witness: the coefficient `2 > 1` is used as-is. -/
theorem calculate_rt60_no_range_validation_witness :
    calculate_rt60 (1, 1, 1) (fun _ => [2, 0, 0, 0, 0, 0]) Band.low =
      0.161 * (1 * 1 * 1) /
        (1*1*2 + 1*1*0 + 1*1*0 + 1*1*0 + 1*1*0 + 1*1*0) :=
  calculate_rt60_no_range_validation 1 1 1 2 0 0 0 0 0
    (fun _ => [2, 0, 0, 0, 0, 0]) Band.low rfl (Or.inr (by norm_num))
    (by norm_num)

/-- C5 counterexample: with a single-entry coefficient list (length 1,
not 6) on a 1×1×1 room, `calculate_rt60` does not fail: `zip` pairs the
one coefficient with the first wall only and the call returns
`0.161` for that band. -/
theorem coeff_count_counterexample :
    ([(1 : ℚ)]).length ≠ 6 ∧
    calculate_rt60 (1, 1, 1) (fun _ => [1]) Band.low = 161 / 1000 := by
  norm_num [calculate_rt60, compute_room_volume, compute_surface_areas,
    bandTotalAbsorption]

/-- C5 amended: when a band's coefficient list does not have six
entries, `calculate_rt60` raises no error: `zip` silently truncates the
wall/coefficient pairing to the shorter of the two lists and the RT60
value is computed from that partial sum. -/
theorem calculate_rt60_truncates_pairing (l w h : ℚ)
    (abs_coeff : Band → List ℚ) (band : Band)
    (hlen : (abs_coeff band).length ≠ 6) :
    bandTotalAbsorption (compute_surface_areas (l, w, h)) (abs_coeff band)
      = bandTotalAbsorption
          ((compute_surface_areas (l, w, h)).take (abs_coeff band).length)
          (abs_coeff band) ∧
    calculate_rt60 (l, w, h) abs_coeff band =
      if 0 < bandTotalAbsorption (compute_surface_areas (l, w, h))
          (abs_coeff band)
      then 0.161 * (compute_room_volume (l, w, h) /
          bandTotalAbsorption (compute_surface_areas (l, w, h))
            (abs_coeff band))
      else 0 :=
  ⟨congrArg List.sum
    (zipWith_mul_truncate (compute_surface_areas (l, w, h)) (abs_coeff band)),
   rfl⟩

/-- C5 amended witness: the one-coefficient band from the
counterexample input. -/
theorem calculate_rt60_truncates_pairing_witness :
    bandTotalAbsorption (compute_surface_areas (1, 1, 1))
        ((fun _ : Band => [(1 : ℚ)]) Band.low)
      = bandTotalAbsorption
          ((compute_surface_areas (1, 1, 1)).take
            ((fun _ : Band => [(1 : ℚ)]) Band.low).length)
          ((fun _ : Band => [(1 : ℚ)]) Band.low) ∧
    calculate_rt60 (1, 1, 1) (fun _ => [1]) Band.low =
      if 0 < bandTotalAbsorption (compute_surface_areas (1, 1, 1))
          ((fun _ : Band => [(1 : ℚ)]) Band.low)
      then 0.161 * (compute_room_volume (1, 1, 1) /
          bandTotalAbsorption (compute_surface_areas (1, 1, 1))
            ((fun _ : Band => [(1 : ℚ)]) Band.low))
      else 0 :=
  calculate_rt60_truncates_pairing 1 1 1 (fun _ => [1]) Band.low
    (by norm_num)

/-- C6 counterexample: at the invalid dimensions `(-1, 2, 3)` the
geometry functions return partial results instead of failing:
the volume is `-6`, four wall areas are negative, and with full
absorption `calculate_rt60` even returns the negative time
`-0.483` for a band. -/
theorem invalid_geometry_counterexample :
    (-1 : ℚ) ≤ 0 ∧
    compute_room_volume (-1, 2, 3) = -6 ∧
    compute_surface_areas (-1, 2, 3) = [-2, -2, -3, -3, 6, 6] ∧
    calculate_rt60 (-1, 2, 3) (fun _ => [1, 1, 1, 1, 1, 1]) Band.low
      = -483 / 1000 := by
  norm_num [calculate_rt60, compute_room_volume, compute_surface_areas,
    bandTotalAbsorption]

/-- C6 amended: the geometry functions perform no validation: for any
dimensions, including non-positive ones, `compute_room_volume` and
`compute_surface_areas` return the plain arithmetic products (no
`InvalidGeometry` failure) and `calculate_rt60` still computes its
guarded Sabine value from them. -/
theorem geometry_no_validation (l w h : ℚ)
    (hnp : l ≤ 0 ∨ w ≤ 0 ∨ h ≤ 0)
    (abs_coeff : Band → List ℚ) (band : Band) :
    compute_room_volume (l, w, h) = l * w * h ∧
    compute_surface_areas (l, w, h) = [l*w, l*w, l*h, l*h, w*h, w*h] ∧
    calculate_rt60 (l, w, h) abs_coeff band =
      if 0 < bandTotalAbsorption (compute_surface_areas (l, w, h))
          (abs_coeff band)
      then 0.161 * (compute_room_volume (l, w, h) /
          bandTotalAbsorption (compute_surface_areas (l, w, h))
            (abs_coeff band))
      else 0 :=
  ⟨rfl, rfl, rfl⟩

/-- C6 amended witness: the invalid dimensions `(-1, 2, 3)`. -/
theorem geometry_no_validation_witness :
    compute_room_volume (-1, 2, 3) = -1 * 2 * 3 ∧
    compute_surface_areas (-1, 2, 3)
      = [-1*2, -1*2, -1*3, -1*3, 2*3, 2*3] ∧
    calculate_rt60 (-1, 2, 3) (fun _ => [1, 1, 1, 1, 1, 1]) Band.low =
      if 0 < bandTotalAbsorption (compute_surface_areas (-1, 2, 3))
          ((fun _ : Band => [(1 : ℚ), 1, 1, 1, 1, 1]) Band.low)
      then 0.161 * (compute_room_volume (-1, 2, 3) /
          bandTotalAbsorption (compute_surface_areas (-1, 2, 3))
            ((fun _ : Band => [(1 : ℚ), 1, 1, 1, 1, 1]) Band.low))
      else 0 :=
  geometry_no_validation (-1) 2 3 (Or.inl (by norm_num))
    (fun _ => [1, 1, 1, 1, 1, 1]) Band.low

/-- C7: the energy curve of `plot_responses_and_rt60` is
`np.cumsum(response[0]**2)[::-1]` — the reverse of the forward
cumulative sum — not the cumulative sum from the end.  On the
response `[1, 0]` the code's curve is `[1, 1]`, while the tail-sum
`Σ_{j≥t} a[j]²` at `t = 1` is `0`; the two disagree at index 1. -/
theorem energy_decay_reversed_bug :
    energyCurve [1, 0] = [1, 1] ∧
    specDecayValue [1, 0] 1 = 0 ∧
    (energyCurve [1, 0]).getD 1 0 ≠ specDecayValue [1, 0] 1 := by
  norm_num [energyCurve, cumsum, cumsumFrom, specDecayValue]

/-- C9: when a band's total absorption is non-positive,
`calculate_rt60` returns `0` for that band rather than dividing by
zero, and any other band's value depends only on that band's own
coefficient list (so the other bands are unaffected). -/
theorem rt60_zero_absorption_guard (room_dims : ℚ × ℚ × ℚ)
    (abs_coeff abs_coeff₂ : Band → List ℚ) (band band' : Band)
    (hz : bandTotalAbsorption (compute_surface_areas room_dims)
      (abs_coeff band) ≤ 0)
    (hb : abs_coeff₂ band' = abs_coeff band') :
    calculate_rt60 room_dims abs_coeff band = 0 ∧
    calculate_rt60 room_dims abs_coeff₂ band'
      = calculate_rt60 room_dims abs_coeff band' := by
  constructor
  · simp only [calculate_rt60]
    rw [if_neg (not_lt.mpr hz)]
  · simp only [calculate_rt60, hb]

/-- C9 witness: the low band fully reflective (all-zero coefficients,
total absorption 0), while a second configuration differing at the low
band leaves the mid band's value unchanged. -/
theorem rt60_zero_absorption_guard_witness :
    calculate_rt60 (4, 3, 5/2) zeroLowCoeffs Band.low = 0 ∧
    calculate_rt60 (4, 3, 5/2) otherLowCoeffs Band.mid
      = calculate_rt60 (4, 3, 5/2) zeroLowCoeffs Band.mid :=
  rt60_zero_absorption_guard (4, 3, 5/2) zeroLowCoeffs otherLowCoeffs
    Band.low Band.mid (by norm_num [bandTotalAbsorption,
      compute_surface_areas, zeroLowCoeffs]) (by rfl)

/-- C10: `calculate_rt60` is deterministic and input-preserving in the
embedding: equal room dimensions and (pointwise) equal coefficient
dictionaries give equal results on every band. -/
theorem calculate_rt60_deterministic (d₁ d₂ : ℚ × ℚ × ℚ)
    (c₁ c₂ : Band → List ℚ)
    (hd : d₁ = d₂) (hc : ∀ b, c₁ b = c₂ b) (band : Band) :
    calculate_rt60 d₁ c₁ band = calculate_rt60 d₂ c₂ band := by
  subst hd
  simp only [calculate_rt60, hc band]

/-- C10 witness: two syntactically different but pointwise-equal
coefficient dictionaries give the same low-band RT60. -/
theorem calculate_rt60_deterministic_witness :
    calculate_rt60 (4, 3, 5/2) zeroLowCoeffs Band.low
      = calculate_rt60 (4, 3, 5/2) zeroLowCoeffsCopy Band.low :=
  calculate_rt60_deterministic (4, 3, 5/2) (4, 3, 5/2) zeroLowCoeffs
    zeroLowCoeffsCopy rfl (fun b => by cases b <;> rfl) Band.low

/-- C8: for every valid configuration (non-empty sources and receivers,
valid geometry, absorption and positions), `image_source_method`
returns a structure keyed first by band, where each band's value is an
ordered sequence of impulse responses with exactly one response per
configured receiver, preserving the receiver input order. -/
theorem image_source_method_structure (params : SynthParams)
    (cfg : SimulationConfig) (enhanced : Bool)
    (hs : cfg.source_positions ≠ []) (hr : cfg.receiver_positions ≠ [])
    (hg : validGeometry cfg) (ha : validAbsorption cfg)
    (hp : validPositions cfg) :
    ∃ responses : Band → List (List ℝ),
      image_source_method params cfg enhanced = Except.ok responses ∧
      ∀ band : Band,
        (responses band).length = cfg.receiver_positions.length ∧
        ∀ i : ℕ, (responses band).get? i
          = Option.map (bandResponse params cfg enhanced band)
              (cfg.receiver_positions.get? i) := by
  refine ⟨fun band =>
    cfg.receiver_positions.map (bandResponse params cfg enhanced band),
    ?_, ?_⟩
  · simp only [image_source_method]
    rw [if_neg (not_or.mpr ⟨hs, hr⟩), if_neg (not_not.mpr hg),
      if_neg (not_not.mpr ha), if_neg (not_not.mpr hp)]
  · intro band
    exact ⟨List.length_map _ _, fun i => List.get?_map _ _ _⟩

/-- C8 witness: the concrete valid configuration `exConfig`. -/
theorem image_source_method_structure_witness :
    ∃ responses : Band → List (List ℝ),
      image_source_method exParams exConfig true = Except.ok responses ∧
      ∀ band : Band,
        (responses band).length = exConfig.receiver_positions.length ∧
        ∀ i : ℕ, (responses band).get? i
          = Option.map (bandResponse exParams exConfig true band)
              (exConfig.receiver_positions.get? i) :=
  image_source_method_structure exParams exConfig true
    (by simp [exConfig]) (by simp [exConfig])
    (by refine ⟨?_, ?_, ?_⟩ <;> norm_num [exConfig, validGeometry])
    (by
      intro b
      refine ⟨by simp [exConfig], ?_⟩
      intro alpha hmem
      simp only [exConfig, List.mem_cons, List.not_mem_nil, or_false] at hmem
      rcases hmem with h | h | h | h | h | h <;> subst h <;> norm_num)
    (by
      intro p hmem
      simp only [exConfig, List.mem_append, List.mem_cons,
        List.not_mem_nil, or_false] at hmem
      rcases hmem with h | h | h <;> subst h <;>
        norm_num [inBounds, exConfig])
